import Mathlib

/-!
Verification of `src/backend/src/scripts/typhoon_ocr_runner.py`.

The script is embedded shallowly: the process environment is a function
from variable names to optional values, the external `ocr_document`
capability is an oracle from the keyword arguments the script builds to
either a markdown string or an error message, and a run of the script is
a pure function producing the exit code, the text written to stdout and
stderr, and the list of OCR invocations performed.
-/

namespace TyphoonOcrRunner

/-- Keyword arguments the script passes to the external `ocr_document`
capability.  `api_key` and `page_num` are `none` exactly when the script
omits the corresponding keyword. -/
structure OcrKwargs where
  pdf_or_image_path : String
  base_url : String
  api_key : Option String
  page_num : Option Int
deriving Repr, DecidableEq

/-- Observable outcome of one process invocation: exit status, the full
text written to stdout and to stderr, and the OCR calls performed (in
order; the script makes at most one). -/
structure RunResult where
  exitCode : Nat
  stdout : String
  stderr : String
  ocrCalls : List OcrKwargs
deriving Repr, DecidableEq

/-- Python `a or b` on optional strings: `os.getenv` yields `none` for an
unset variable, and both `none` and the empty string are falsy. -/
def pyOrStr (a b : Option String) : Option String :=
  match a with
  | some s => if s = "" then b else some s
  | none => b

/-- Python truthiness filter on an optional string: `if v:` succeeds only
for a present, non-empty string. -/
def truthyOpt (v : Option String) : Option String :=
  match v with
  | some s => if s = "" then none else some s
  | none => none

/-- The hardcoded default endpoint in the script. -/
def defaultBaseUrl : String := "https://api.opentyphoon.ai/v1"

/-- `os.getenv("OCR_BASE_URL") or os.getenv("OCR_ENDPOINT") or default`,
left-associated as in the source. -/
def resolveBaseUrl (env : String → Option String) : String :=
  match pyOrStr (env "OCR_BASE_URL") (env "OCR_ENDPOINT") with
  | some s => if s = "" then defaultBaseUrl else s
  | none => defaultBaseUrl

/-- `os.getenv("OCR_API_KEY") or os.getenv("TYPHOON_OCR_API_KEY") or
os.getenv("OPENAI_API_KEY")`, left-associated as in the source.  The
result may still be falsy (`none` or an empty string); the script's
`if api_key:` guard is `truthyOpt`. -/
def apiKeyChain (env : String → Option String) : Option String :=
  pyOrStr (pyOrStr (env "OCR_API_KEY") (env "TYPHOON_OCR_API_KEY"))
    (env "OPENAI_API_KEY")

/-- The ASCII characters Python's `int()` strips from both ends of its
argument: exactly `\t`, `\n`, `\x0b`, `\x0c`, `\x0d` and space (checked
against CPython, which does not strip the separators `\x1c`-`\x1f`).
CPython additionally strips non-ASCII Unicode whitespace such as
`\xa0`; that lies outside this ASCII model, so the error-path theorem
below restricts its argument to ASCII. -/
def pyWs (c : Char) : Bool :=
  c = ' ' || c = '\t' || c = '\n' || c = '\x0d' || c.toNat = 11 || c.toNat = 12

/-- ASCII decimal digits.  CPython's `int()` also accepts non-ASCII
Unicode decimal digits (category Nd); those lie outside this ASCII
model. -/
def isDecDigit (c : Char) : Bool := '0' ≤ c && c ≤ '9'

def digitVal (c : Char) : Nat := c.toNat - '0'.toNat

/-- Digit-run tail of Python `int()`: after a first digit, each later
character is a digit or a single underscore followed by a digit. -/
def pyDigitsGo : List Char → Nat → Option Nat
  | [], acc => some acc
  | '_' :: c :: rest, acc =>
      if isDecDigit c then pyDigitsGo rest (acc * 10 + digitVal c) else none
  | c :: rest, acc =>
      if isDecDigit c then pyDigitsGo rest (acc * 10 + digitVal c) else none

/-- A non-empty decimal digit run, possibly with single underscores
between digits, as accepted by Python's `int()`. -/
def pyDigits (cs : List Char) : Option Nat :=
  match cs with
  | [] => none
  | c :: rest => if isDecDigit c then pyDigitsGo rest (digitVal c) else none

/-- Python `int(s)` for base 10: strip surrounding whitespace, allow one
optional sign, then a non-empty digit run; `none` when `int` would raise
`ValueError`.  The model agrees with CPython on every all-ASCII
argument; non-ASCII digits and whitespace, which CPython also accepts,
lie outside it. -/
def pyInt (s : String) : Option Int :=
  let cs := ((s.data.dropWhile pyWs).reverse.dropWhile pyWs).reverse
  match cs with
  | '+' :: ds => (pyDigits ds).map Int.ofNat
  | '-' :: ds => (pyDigits ds).map (fun n => -(Int.ofNat n : Int))
  | ds => (pyDigits ds).map Int.ofNat

def hexDigitChar (n : Nat) : Char :=
  if n < 10 then Char.ofNat ('0'.toNat + n) else Char.ofNat ('a'.toNat + n - 10)

/-- `Char.ofNat 39` is the single-quote character, `Char.ofNat 34` the
double quote. -/
def squote : Char := Char.ofNat 39

def dquote : Char := Char.ofNat 34

/-- A `\xHH` escape with two lowercase hex digits, as `repr` uses for
non-printable characters below `\x100`. -/
def asciiHexEscape (n : Nat) : List Char :=
  ['\\', 'x', hexDigitChar (n / 16 % 16), hexDigitChar (n % 16)]

/-- The quote character Python's `repr` picks for a string: single
quotes, unless the string contains a single quote and no double quote. -/
def pyReprQuote (s : String) : Char :=
  if s.data.contains squote && !(s.data.contains dquote) then dquote else squote

/-- How Python's `repr` renders one ASCII character inside quote
character `q`: backslash-escapes for the backslash and for `q` itself,
named escapes for newline, carriage return and tab, `\xHH` for the
other non-printables (controls and `\x7f`), the character otherwise. -/
def pyReprChar (q : Char) (c : Char) : List Char :=
  if c = '\\' then ['\\', '\\']
  else if c = q then ['\\', q]
  else if c = '\n' then ['\\', 'n']
  else if c = '\x0d' then ['\\', 'r']
  else if c = '\t' then ['\\', 't']
  else if c.toNat < 32 || c.toNat = 127 then asciiHexEscape c.toNat
  else [c]

/-- Python's `repr` of a string, faithful for all-ASCII arguments
(non-ASCII printability classes are outside this model). -/
def pyReprAscii (s : String) : String :=
  let q := pyReprQuote s
  ⟨q :: s.data.foldr (fun c acc => pyReprChar q c ++ acc) [q]⟩

/-- The message of the `ValueError` raised by `int(s)` on a bad literal:
CPython splices in `repr(s)`.  Faithful for all-ASCII arguments. -/
def intErrorMsg (s : String) : String :=
  "invalid literal for int() with base 10: " ++ pyReprAscii s

/-- The message of the `ValueError` the script raises when `file_path`
is missing. -/
def usageMsg : String := "Usage: typhoon_ocr_runner.py <file_path> [page_num]"

/-- A `\uXXXX` escape with four lowercase hex digits. -/
def uEscape (n : Nat) : List Char :=
  ['\\', 'u', hexDigitChar (n / 4096 % 16), hexDigitChar (n / 256 % 16),
   hexDigitChar (n / 16 % 16), hexDigitChar (n % 16)]

/-- How `json.dumps` (default `ensure_ascii=True`) renders one character
inside a string: named escapes for quote, backslash and common controls,
`\uXXXX` for other controls and all non-ASCII (with surrogate pairs above
the basic plane), the character itself otherwise. -/
def jsonEscChar (c : Char) : List Char :=
  let n := c.toNat
  if c = '"' then ['\\', '"']
  else if c = '\\' then ['\\', '\\']
  else if c = '\n' then ['\\', 'n']
  else if c = '\x0d' then ['\\', 'r']
  else if c = '\t' then ['\\', 't']
  else if n = 8 then ['\\', 'b']
  else if n = 12 then ['\\', 'f']
  else if n < 32 || n > 126 then
    if n ≥ 65536 then
      uEscape (55296 + (n - 65536) / 1024) ++ uEscape (56320 + (n - 65536) % 1024)
    else uEscape n
  else [c]

/-- `json.dumps` rendering of a string value, surrounding quotes
included. -/
def jsonString (s : String) : String :=
  ⟨'"' :: s.data.foldr (fun c acc => jsonEscChar c ++ acc) ['"']⟩

/-- `json.dumps(\x7b"markdown": markdown\x7d)`: a one-key object with the
default `", "` / `": "` separators. -/
def dumpsMarkdown (markdown : String) : String :=
  "\x7b\"markdown\": " ++ jsonString markdown ++ "\x7d"

/-- Resolution of the optional `page_num` from `sys.argv[2]` (the head of
`rest` below): absent or empty means no page number; otherwise `int()`
parses it and a bad literal raises. -/
def pageStep (rest : List String) : Except String (Option Int) :=
  match rest.head? with
  | some s =>
      if s = "" then Except.ok none
      else
        match pyInt s with
        | some n => Except.ok (some n)
        | none => Except.error (intErrorMsg s)
  | none => Except.ok none

/-- The keyword dictionary the script builds: `pdf_or_image_path` and
`base_url` always, `api_key` only when truthy, `page_num` only when it
was resolved. -/
def mkKwargs (file_path : String) (env : String → Option String)
    (page_num : Option Int) : OcrKwargs :=
  { pdf_or_image_path := file_path
    base_url := resolveBaseUrl env
    api_key := truthyOpt (apiKeyChain env)
    page_num := page_num }

/-- The script's `main()`: either the string `print` would write (on
success) or the message of the exception raised, paired with the list of
`ocr_document` calls performed.  `ocr_document` is the external oracle. -/
def main (argv : List String) (env : String → Option String)
    (ocr_document : OcrKwargs → Except String String) :
    Except String String × List OcrKwargs :=
  match argv with
  | _ :: file_path :: rest =>
      match pageStep rest with
      | Except.error e => (Except.error e, [])
      | Except.ok page_num =>
          let kwargs := mkKwargs file_path env page_num
          match ocr_document kwargs with
          | Except.error e => (Except.error e, [kwargs])
          | Except.ok markdown => (Except.ok (dumpsMarkdown markdown), [kwargs])
  | _ => (Except.error usageMsg, [])

/-- The `if __name__ == "__main__":` harness: a successful `main` prints
its JSON line to stdout and exits 0; any exception is printed (with the
trailing newline `print` adds) to stderr and the process exits 1. -/
def runScript (argv : List String) (env : String → Option String)
    (ocr_document : OcrKwargs → Except String String) : RunResult :=
  match main argv env ocr_document with
  | (Except.ok out, calls) =>
      { exitCode := 0, stdout := out ++ "\n", stderr := "", ocrCalls := calls }
  | (Except.error msg, calls) =>
      { exitCode := 1, stdout := "", stderr := msg ++ "\n", ocrCalls := calls }

/-- Spec-side resolution rule, written from the spec's words: the first
present, non-empty value in a precedence list of environment lookups. -/
def firstNonEmpty : List (Option String) → Option String
  | [] => none
  | v :: rest =>
      match v with
      | some s => if s = "" then firstNonEmpty rest else some s
      | none => firstNonEmpty rest

/-- A concrete environment with both endpoint variables set non-empty,
used to witness the precedence claims. -/
def envBoth : String → Option String :=
  fun v =>
    if v = "OCR_BASE_URL" then some "http://a"
    else if v = "OCR_ENDPOINT" then some "http://b"
    else none

/-- A concrete environment with all three credential variables set
non-empty, used to witness the precedence claims. -/
def envKeys : String → Option String :=
  fun v =>
    if v = "OCR_API_KEY" then some "k1"
    else if v = "TYPHOON_OCR_API_KEY" then some "k2"
    else if v = "OPENAI_API_KEY" then some "k3"
    else none

theorem runScript_ocrCalls (argv : List String) (env : String → Option String)
    (ocr_document : OcrKwargs → Except String String) :
    (runScript argv env ocr_document).ocrCalls = (main argv env ocr_document).2 := by
  unfold runScript
  rcases h : main argv env ocr_document with ⟨r, calls⟩
  cases r <;> simp

theorem mem_main_calls (argv : List String) (env : String → Option String)
    (ocr_document : OcrKwargs → Except String String) (k : OcrKwargs)
    (hk : k ∈ (main argv env ocr_document).2) :
    ∃ a0 fp rest pn, argv = a0 :: fp :: rest ∧ pageStep rest = Except.ok pn ∧
      k = mkKwargs fp env pn := by
  rcases argv with _ | ⟨a0, _ | ⟨fp, rest⟩⟩
  · simp [main] at hk
  · simp [main] at hk
  · refine ⟨a0, fp, rest, ?_⟩
    simp only [main] at hk
    rcases hp : pageStep rest with e | pn
    · rw [hp] at hk; simp at hk
    · rw [hp] at hk
      rcases ho : ocr_document (mkKwargs fp env pn) with e | md <;>
        simp [ho] at hk <;> exact ⟨pn, rfl, rfl, hk⟩

theorem resolveBaseUrl_eq (env : String → Option String) :
    resolveBaseUrl env =
      (firstNonEmpty [env "OCR_BASE_URL", env "OCR_ENDPOINT"]).getD defaultBaseUrl := by
  unfold resolveBaseUrl pyOrStr firstNonEmpty
  rcases env "OCR_BASE_URL" with _ | s1 <;> rcases env "OCR_ENDPOINT" with _ | s2 <;>
    simp [firstNonEmpty] <;> split_ifs <;> simp_all [firstNonEmpty]

theorem apiKey_eq (env : String → Option String) :
    truthyOpt (apiKeyChain env) =
      firstNonEmpty [env "OCR_API_KEY", env "TYPHOON_OCR_API_KEY",
        env "OPENAI_API_KEY"] := by
  unfold truthyOpt apiKeyChain pyOrStr
  rcases env "OCR_API_KEY" with _ | s1 <;>
    rcases env "TYPHOON_OCR_API_KEY" with _ | s2 <;>
    rcases env "OPENAI_API_KEY" with _ | s3 <;>
    simp [firstNonEmpty] <;> split_ifs <;> simp_all [firstNonEmpty]

/-- C1: with fewer than two entries in `sys.argv` (no `file_path`), the
runner exits with status 1, writes the fixed usage message to stderr,
writes nothing to stdout, and never invokes the OCR capability. -/
theorem usage_error_exits_without_call (argv : List String)
    (env : String → Option String)
    (ocr_document : OcrKwargs → Except String String)
    (h : argv.length < 2) :
    runScript argv env ocr_document =
      { exitCode := 1, stdout := "", stderr := usageMsg ++ "\n", ocrCalls := [] } := by
  rcases argv with _ | ⟨a, _ | ⟨b, t⟩⟩
  · rfl
  · rfl
  · simp at h; omega

/-- Witness for C1 at the empty argument vector. -/
theorem usage_error_exits_without_call_witness :
    ([] : List String).length < 2 ∧
      runScript [] (fun _ => none) (fun _ => Except.error "") =
        { exitCode := 1, stdout := "", stderr := usageMsg ++ "\n", ocrCalls := [] } :=
  ⟨by decide,
   usage_error_exits_without_call [] (fun _ => none) (fun _ => Except.error "")
     (by decide)⟩

/-- C2: when the OCR call raises, its message (alone) goes to stderr with
a newline, the exit status is 1, and stdout stays empty, the single OCR
call having been made. -/
theorem external_error_uniform_failure (a0 fp : String) (rest : List String)
    (env : String → Option String)
    (ocr_document : OcrKwargs → Except String String)
    (pn : Option Int) (msg : String)
    (hpage : pageStep rest = Except.ok pn)
    (hocr : ocr_document (mkKwargs fp env pn) = Except.error msg) :
    runScript (a0 :: fp :: rest) env ocr_document =
      { exitCode := 1, stdout := "", stderr := msg ++ "\n",
        ocrCalls := [mkKwargs fp env pn] } := by
  have hm : main (a0 :: fp :: rest) env ocr_document =
      (Except.error msg, [mkKwargs fp env pn]) := by
    simp only [main, hpage, hocr]
  unfold runScript
  rw [hm]

/-- Witness for C2 with the spec's `"rate limited"` example. -/
theorem external_error_uniform_failure_witness :
    pageStep [] = Except.ok none ∧
      runScript ["runner", "doc.pdf"] (fun _ => none)
          (fun _ => Except.error "rate limited") =
        { exitCode := 1, stdout := "", stderr := "rate limited" ++ "\n",
          ocrCalls := [mkKwargs "doc.pdf" (fun _ => none) none] } :=
  ⟨rfl,
   external_error_uniform_failure "runner" "doc.pdf" [] (fun _ => none)
     (fun _ => Except.error "rate limited") none "rate limited" rfl rfl⟩

/-- C3: every OCR call the runner makes carries as `base_url` the first
non-empty value among `OCR_BASE_URL` and `OCR_ENDPOINT`, defaulting to
the fixed endpoint string when neither is set non-empty (so when both
are set non-empty, `OCR_BASE_URL` wins). -/
theorem base_url_resolution (argv : List String) (env : String → Option String)
    (ocr_document : OcrKwargs → Except String String) (k : OcrKwargs)
    (hk : k ∈ (runScript argv env ocr_document).ocrCalls) :
    k.base_url =
      (firstNonEmpty [env "OCR_BASE_URL", env "OCR_ENDPOINT"]).getD defaultBaseUrl := by
  rw [runScript_ocrCalls] at hk
  obtain ⟨a0, fp, rest, pn, -, -, rfl⟩ := mem_main_calls argv env ocr_document k hk
  rw [← resolveBaseUrl_eq]
  rfl

/-- Witness for C3 with both variables set: `OCR_BASE_URL` wins. -/
theorem base_url_resolution_witness :
    mkKwargs "f" envBoth none ∈
        (runScript ["p", "f"] envBoth (fun _ => Except.ok "m")).ocrCalls ∧
      (mkKwargs "f" envBoth none).base_url =
        (firstNonEmpty [envBoth "OCR_BASE_URL", envBoth "OCR_ENDPOINT"]).getD
          defaultBaseUrl ∧
      (mkKwargs "f" envBoth none).base_url = "http://a" :=
  ⟨by decide,
   base_url_resolution ["p", "f"] envBoth (fun _ => Except.ok "m")
     (mkKwargs "f" envBoth none) (by decide),
   by decide⟩

/-- C4: every OCR call the runner makes carries as `api_key` the first
non-empty value among `OCR_API_KEY`, `TYPHOON_OCR_API_KEY` and
`OPENAI_API_KEY` (so `OCR_API_KEY` wins when all are set non-empty), and
carries no credential at all when none is set non-empty. -/
theorem api_key_resolution (argv : List String) (env : String → Option String)
    (ocr_document : OcrKwargs → Except String String) (k : OcrKwargs)
    (hk : k ∈ (runScript argv env ocr_document).ocrCalls) :
    k.api_key =
      firstNonEmpty [env "OCR_API_KEY", env "TYPHOON_OCR_API_KEY",
        env "OPENAI_API_KEY"] := by
  rw [runScript_ocrCalls] at hk
  obtain ⟨a0, fp, rest, pn, -, -, rfl⟩ := mem_main_calls argv env ocr_document k hk
  rw [← apiKey_eq]
  rfl

/-- Witness for C4: with all three credential variables set,
`OCR_API_KEY` wins; with none set, no credential is passed. -/
theorem api_key_resolution_witness :
    (mkKwargs "f" envKeys none ∈
          (runScript ["p", "f"] envKeys (fun _ => Except.ok "m")).ocrCalls ∧
        (mkKwargs "f" envKeys none).api_key =
          firstNonEmpty [envKeys "OCR_API_KEY", envKeys "TYPHOON_OCR_API_KEY",
            envKeys "OPENAI_API_KEY"] ∧
        (mkKwargs "f" envKeys none).api_key = some "k1") ∧
      (mkKwargs "f" (fun _ => none) none).api_key = none :=
  ⟨⟨by decide,
    api_key_resolution ["p", "f"] envKeys (fun _ => Except.ok "m")
      (mkKwargs "f" envKeys none) (by decide),
    by decide⟩,
   by decide⟩

/-- C5: an OCR call carries a page number exactly when `sys.argv[2]`
exists and is non-empty; an absent or empty second positional argument
yields a call without a page-number keyword. -/
theorem page_num_iff_second_arg (argv : List String) (env : String → Option String)
    (ocr_document : OcrKwargs → Except String String) (k : OcrKwargs)
    (hk : k ∈ (runScript argv env ocr_document).ocrCalls) :
    k.page_num ≠ none ↔ ∃ s, argv[2]? = some s ∧ s ≠ "" := by
  rw [runScript_ocrCalls] at hk
  obtain ⟨a0, fp, rest, pn, rfl, hp, rfl⟩ := mem_main_calls argv env ocr_document k hk
  have hidx : (a0 :: fp :: rest)[2]? = rest.head? := by
    cases rest <;> simp
  rw [hidx]
  rcases rest with _ | ⟨s, t⟩
  · simp [pageStep] at hp
    simp [mkKwargs, ← hp]
  · by_cases hs : s = ""
    · subst hs
      simp [pageStep] at hp
      simp [mkKwargs, ← hp]
    · rcases hn : pyInt s with _ | n
      · simp [pageStep, hs, hn] at hp
      · simp [pageStep, hs, hn] at hp
        simp [mkKwargs, ← hp, hs]

/-- Witness for C5 at `argv[2] = "3"`. -/
theorem page_num_iff_second_arg_witness :
    mkKwargs "f" (fun _ => none) (some 3) ∈
        (runScript ["p", "f", "3"] (fun _ => none)
          (fun _ => Except.ok "m")).ocrCalls ∧
      ((mkKwargs "f" (fun _ => none) (some 3)).page_num ≠ none ↔
        ∃ s, (["p", "f", "3"] : List String)[2]? = some s ∧ s ≠ "") :=
  ⟨by decide,
   page_num_iff_second_arg ["p", "f", "3"] (fun _ => none) (fun _ => Except.ok "m")
     (mkKwargs "f" (fun _ => none) (some 3)) (by decide)⟩

theorem ocrCalls_of_parsed (a0 fp s : String) (t : List String)
    (env : String → Option String)
    (ocr_document : OcrKwargs → Except String String) (n : Int)
    (hne : s ≠ "") (hs : pyInt s = some n) :
    (runScript (a0 :: fp :: s :: t) env ocr_document).ocrCalls =
      [mkKwargs fp env (some n)] := by
  rw [runScript_ocrCalls]
  have hp : pageStep (s :: t) = Except.ok (some n) := by
    simp [pageStep, hne, hs]
  simp only [main, hp]
  rcases ho : ocr_document (mkKwargs fp env (some n)) with e | md <;> simp [ho]

/-- C6: a non-empty second positional argument that `int()` accepts is
parsed and passed as the integer page number, alongside `file_path` as
the document path, in the single OCR call. -/
theorem page_num_parsed_and_passed (a0 fp s : String) (t : List String)
    (env : String → Option String)
    (ocr_document : OcrKwargs → Except String String) (n : Int)
    (hne : s ≠ "") (hs : pyInt s = some n) :
    ∃ k, (runScript (a0 :: fp :: s :: t) env ocr_document).ocrCalls = [k] ∧
      k.pdf_or_image_path = fp ∧ k.page_num = some n :=
  ⟨mkKwargs fp env (some n),
   ocrCalls_of_parsed a0 fp s t env ocr_document n hne hs, rfl, rfl⟩

/-- Witness for C6 with the spec's example `page_num = "3"`. -/
theorem page_num_parsed_and_passed_witness :
    ("3" : String) ≠ "" ∧ pyInt "3" = some 3 ∧
      ∃ k, (runScript ["p", "f", "3"] (fun _ => none)
          (fun _ => Except.ok "m")).ocrCalls = [k] ∧
        k.pdf_or_image_path = "f" ∧ k.page_num = some 3 :=
  ⟨by decide, by decide,
   page_num_parsed_and_passed "p" "f" "3" [] (fun _ => none)
     (fun _ => Except.ok "m") 3 (by decide) (by decide)⟩

/-- C7: when the OCR call returns markdown, stdout is exactly the one-key
JSON object (plus the trailing newline of `print`), stderr is empty, and
the exit status is 0. -/
theorem success_writes_json_and_exits_zero (a0 fp : String) (rest : List String)
    (env : String → Option String)
    (ocr_document : OcrKwargs → Except String String)
    (pn : Option Int) (markdown : String)
    (hpage : pageStep rest = Except.ok pn)
    (hocr : ocr_document (mkKwargs fp env pn) = Except.ok markdown) :
    runScript (a0 :: fp :: rest) env ocr_document =
      { exitCode := 0, stdout := dumpsMarkdown markdown ++ "\n", stderr := "",
        ocrCalls := [mkKwargs fp env pn] } := by
  have hm : main (a0 :: fp :: rest) env ocr_document =
      (Except.ok (dumpsMarkdown markdown), [mkKwargs fp env pn]) := by
    simp only [main, hpage, hocr]
  unfold runScript
  rw [hm]

/-- Witness for C7 with the spec's `"# Title\nBody"` example, spelling
out the exact escaped JSON line. -/
theorem success_writes_json_and_exits_zero_witness :
    pageStep [] = Except.ok none ∧
      dumpsMarkdown "# Title\nBody" = "\x7b\"markdown\": \"# Title\\nBody\"\x7d" ∧
      runScript ["runner", "doc.pdf"] (fun _ => none)
          (fun _ => Except.ok "# Title\nBody") =
        { exitCode := 0, stdout := dumpsMarkdown "# Title\nBody" ++ "\n",
          stderr := "", ocrCalls := [mkKwargs "doc.pdf" (fun _ => none) none] } :=
  ⟨rfl, by decide,
   success_writes_json_and_exits_zero "runner" "doc.pdf" [] (fun _ => none)
     (fun _ => Except.ok "# Title\nBody") none "# Title\nBody" rfl rfl⟩

/-- C8: a non-empty all-ASCII second argument that `int()` rejects makes
the run exit 1 with the `ValueError` message (with `repr`-quoted
argument) on stderr, nothing on stdout, and no OCR call.  The ASCII
hypothesis confines the statement to arguments on which `pyInt` and
`pyReprAscii` model CPython exactly; CPython accepts some non-ASCII
digit or whitespace characters that this model does not cover. -/
theorem page_parse_error_no_call (a0 fp s : String) (t : List String)
    (env : String → Option String)
    (ocr_document : OcrKwargs → Except String String)
    (_hascii : ∀ c ∈ s.data, c.toNat < 128)
    (hne : s ≠ "") (hbad : pyInt s = none) :
    runScript (a0 :: fp :: s :: t) env ocr_document =
      { exitCode := 1, stdout := "", stderr := intErrorMsg s ++ "\n",
        ocrCalls := [] } := by
  have hp : pageStep (s :: t) = Except.error (intErrorMsg s) := by
    simp [pageStep, hne, hbad]
  have hm : main (a0 :: fp :: s :: t) env ocr_document =
      (Except.error (intErrorMsg s), []) := by
    simp only [main, hp]
  unfold runScript
  rw [hm]

/-- Witness for C8 at the claim's examples `"abc"` and `"3.5"`, with the
exact stderr contents spelled out. -/
theorem page_parse_error_no_call_witness :
    ((∀ c ∈ ("abc" : String).data, c.toNat < 128) ∧ ("abc" : String) ≠ "" ∧
        pyInt "abc" = none ∧
        intErrorMsg "abc" = "invalid literal for int() with base 10: 'abc'" ∧
        runScript ["p", "f", "abc"] (fun _ => none) (fun _ => Except.ok "m") =
          { exitCode := 1, stdout := "", stderr := intErrorMsg "abc" ++ "\n",
            ocrCalls := [] }) ∧
      (pyInt "3.5" = none ∧
        intErrorMsg "3.5" = "invalid literal for int() with base 10: '3.5'" ∧
        runScript ["p", "f", "3.5"] (fun _ => none) (fun _ => Except.ok "m") =
          { exitCode := 1, stdout := "", stderr := intErrorMsg "3.5" ++ "\n",
            ocrCalls := [] }) :=
  ⟨⟨by decide, by decide, by decide, by decide,
    page_parse_error_no_call "p" "f" "abc" [] (fun _ => none)
      (fun _ => Except.ok "m") (by decide) (by decide) (by decide)⟩,
   ⟨by decide, by decide,
    page_parse_error_no_call "p" "f" "3.5" [] (fun _ => none)
      (fun _ => Except.ok "m") (by decide) (by decide) (by decide)⟩⟩

/-- C9: no positivity check on the page number: any `int()`-accepted
second argument, zero and negatives included, is passed unchanged as the
page number of the OCR call. -/
theorem page_num_passed_unvalidated (a0 fp s : String) (t : List String)
    (env : String → Option String)
    (ocr_document : OcrKwargs → Except String String) (n : Int)
    (hs : pyInt s = some n) :
    ∃ k, (runScript (a0 :: fp :: s :: t) env ocr_document).ocrCalls = [k] ∧
      k.page_num = some n := by
  have hne : s ≠ "" := by
    rintro rfl
    rw [show pyInt "" = none from rfl] at hs
    cases hs
  exact ⟨mkKwargs fp env (some n),
    ocrCalls_of_parsed a0 fp s t env ocr_document n hne hs, rfl⟩

/-- Witness for C9 at the non-positive pages `"-5"` and `"0"`. -/
theorem page_num_passed_unvalidated_witness :
    pyInt "-5" = some (-5) ∧ pyInt "0" = some 0 ∧
      (∃ k, (runScript ["p", "f", "-5"] (fun _ => none)
          (fun _ => Except.ok "m")).ocrCalls = [k] ∧ k.page_num = some (-5)) ∧
      (∃ k, (runScript ["p", "f", "0"] (fun _ => none)
          (fun _ => Except.ok "m")).ocrCalls = [k] ∧ k.page_num = some 0) :=
  ⟨by decide, by decide,
   page_num_passed_unvalidated "p" "f" "-5" [] (fun _ => none)
     (fun _ => Except.ok "m") (-5) (by decide),
   page_num_passed_unvalidated "p" "f" "0" [] (fun _ => none)
     (fun _ => Except.ok "m") 0 (by decide)⟩

/-- C10: positional arguments beyond the second never influence the run:
with the same first three argv entries, environment and oracle, the whole
observable outcome is identical whatever follows. -/
theorem extra_positional_args_ignored (a0 a1 a2 : String) (t t' : List String)
    (env : String → Option String)
    (ocr_document : OcrKwargs → Except String String) :
    runScript (a0 :: a1 :: a2 :: t) env ocr_document =
      runScript (a0 :: a1 :: a2 :: t') env ocr_document := rfl

end TyphoonOcrRunner
